import Mathlib

/-
Verification of the dispatch-plot aggregation pipeline (plot_dispatch.py).

The pipeline is embedded shallowly:
- timestamps are absolute hour indices on the hourly sampling grid
  (the calendar arithmetic of pandas Timestamps is reproduced with
  proleptic-Gregorian day counting; the year-range bounds of pandas
  timestamps and sub-daily components inside the spec string are not
  modeled, since the resolver only produces date-granular instants);
- power values are exact rationals (the float arithmetic of the source
  consists of sums, differences, products and a division by 1000, which
  are modeled exactly);
- each pandas table becomes a list of rows, each row carrying its static
  attributes together with its time-series columns as functions from the
  hour index.
-/

namespace Dispatch

/-- Gregorian leap-year test (proleptic). -/
def isLeap (y : Nat) : Bool :=
  (y % 4 == 0 && y % 100 != 0) || y % 400 == 0

/-- Number of days of month m in year y (months are 1-based). -/
def daysInMonth (y m : Nat) : Nat :=
  if m = 2 then (if isLeap y then 29 else 28)
  else if m = 4 ∨ m = 6 ∨ m = 9 ∨ m = 11 then 30
  else 31

/-- Days in all years before year y (proleptic Gregorian, year 0 counted as leap). -/
def daysBeforeYear (y : Nat) : Nat :=
  365 * y + (y + 3) / 4 + (y + 399) / 400 - (y + 99) / 100

/-- Days of year y in the months strictly before month m. -/
def daysBeforeMonth (y m : Nat) : Nat :=
  ((List.range (m - 1)).map (fun i => daysInMonth y (i + 1))).sum

/-- Absolute hour index of the calendar instant y-m-d h:00 on the hourly grid. -/
def hoursOf (y m d h : Nat) : Nat :=
  (daysBeforeYear y + daysBeforeMonth y m + (d - 1)) * 24 + h

/-- Error raised for a malformed time specification, carrying the offending
string (the exception pandas to_datetime raises in the source). -/
inductive ParseError where
  | malformed : String → ParseError
deriving DecidableEq

/-- Parse a nonempty all-digit string as a natural number (the parsing that
pandas applies to each component of the time specification). -/
def parseNat (s : String) : Option Nat :=
  if s.data ≠ [] ∧ s.data.all (fun c => c.isDigit) then
    some (s.data.foldl (fun a c => a * 10 + (c.toNat - 48)) 0)
  else none

/-- Split a character list at every dash, keeping empty pieces, exactly like
the Python str.split on a single-character separator. -/
def splitDashChars : List Char → List (List Char)
  | [] => [[]]
  | c :: cs =>
    if c = '-' then [] :: splitDashChars cs
    else
      match splitDashChars cs with
      | [] => [[c]]
      | r :: rs => (c :: r) :: rs

/-- Model of the Python expression time.split with separator dash. -/
def splitDash (s : String) : List String :=
  (splitDashChars s.data).map (fun cs => String.mk cs)

/-- Time Window Resolver on the already-split specification
(plot_dispatch.py lines 86-101).  One part is a year grain, two parts a
month grain, three parts a full date; pandas MonthEnd(0) applied to the
first of a month at midnight lands on the last calendar day of that month,
so the month-grain end is written directly as that day at 23:00. -/
def resolveParts (timeStr : String) (parts : List String) (days : Option Nat) :
    Except ParseError (Nat × Nat) :=
  match parts with
  | [ys] =>
    match parseNat ys with
    | some y =>
      let start := hoursOf y 1 1 0
      let stop :=
        match days with
        | some d => start + 24 * d - 1
        | none => hoursOf y 12 31 23
      Except.ok (start, stop)
    | none => Except.error (ParseError.malformed timeStr)
  | [ys, ms] =>
    match parseNat ys, parseNat ms with
    | some y, some m =>
      if 1 ≤ m ∧ m ≤ 12 then
        let start := hoursOf y m 1 0
        let stop :=
          match days with
          | some d => start + 24 * d - 1
          | none => hoursOf y m (daysInMonth y m) 23
        Except.ok (start, stop)
      else Except.error (ParseError.malformed timeStr)
    | _, _ => Except.error (ParseError.malformed timeStr)
  | [ys, ms, ds] =>
    match parseNat ys, parseNat ms, parseNat ds with
    | some y, some m, some d =>
      if 1 ≤ m ∧ m ≤ 12 ∧ 1 ≤ d ∧ d ≤ daysInMonth y m then
        let start := hoursOf y m d 0
        let stop :=
          match days with
          | some k => start + 24 * k - 1
          | none => start + 23
        Except.ok (start, stop)
      else Except.error (ParseError.malformed timeStr)
    | _, _, _ => Except.error (ParseError.malformed timeStr)
  | _ => Except.error (ParseError.malformed timeStr)

/-- Time Window Resolver: split the specification at dashes and resolve
(the source first splits, then branches on the number of parts). -/
def resolve (time : String) (days : Option Nat) : Except ParseError (Nat × Nat) :=
  resolveParts time (splitDash time) days

instance {ε α : Type} [DecidableEq ε] [DecidableEq α] : DecidableEq (Except ε α) :=
  fun a b =>
    match a, b with
    | Except.ok x, Except.ok y =>
      if h : x = y then Decidable.isTrue (by rw [h]) else Decidable.isFalse (by simp [h])
    | Except.ok _, Except.error _ => Decidable.isFalse (by simp)
    | Except.error _, Except.ok _ => Decidable.isFalse (by simp)
    | Except.error x, Except.error y =>
      if h : x = y then Decidable.isTrue (by rw [h]) else Decidable.isFalse (by simp [h])

/-- Generator row: static attributes plus its columns of the generator
time-series tables (dispatched power p, availability fraction p_max_pu). -/
structure Generator where
  name : String
  bus : String
  carrier : String
  p_nom : ℚ
  p : Nat → ℚ
  p_max_pu : Nat → ℚ

/-- Storage-unit or store row with its dispatched-power column. -/
structure StorageRow where
  name : String
  bus : String
  carrier : String
  p : Nat → ℚ

/-- Line or link row: two endpoint buses and the flow columns measured at
each terminal (p0 at bus0, p1 at bus1). -/
structure Branch where
  name : String
  bus0 : String
  bus1 : String
  p0 : Nat → ℚ
  p1 : Nat → ℚ

/-- Load row with its scheduled-demand column p_set. -/
structure LoadRow where
  name : String
  bus : String
  p_set : Nat → ℚ

/-- The solved network dataset: asset tables bundled with their time-series
columns, the carrier registry (label, color), and the snapshot sequence. -/
structure Network where
  buses : List String
  generators : List Generator
  storage_units : List StorageRow
  stores : List StorageRow
  lines : List Branch
  links : List Branch
  loads : List LoadRow
  carriers : List (String × String)
  snapshots : List Nat

/-- Boolean row selection by bus membership (plot_dispatch.py lines 52-62):
with a region list the mask is bus.isin(regions); with none it is all-true.
An empty asset table yields an empty mask in both branches. -/
def regionMask (buses : List String) (regions : Option (List String)) : List Bool :=
  match regions with
  | some rs => buses.map (fun b => rs.contains b)
  | none => buses.map (fun _ => true)

/-- The bus set used by the interchange boundary test: set(regions) when a
region list is given, otherwise all buses (lines 56 and 62). -/
def regionBuses (n : Network) (regions : Option (List String)) : List String :=
  match regions with
  | some rs => rs
  | none => n.buses

/-- Keep the rows whose mask entry is true (the pandas .loc[:, mask]
column selection after transposition). -/
def selectRows {α : Type} : List α → List Bool → List α
  | [], _ => []
  | _ :: _, [] => []
  | a :: as, b :: bs => if b then a :: selectRows as bs else selectRows as bs

/-- The function _agg (plot_dispatch.py lines 65-73) on rows already reduced
to (carrier, power column) pairs: select by mask, group by carrier, sum each
group per timestamp and divide by 1000.  Group keys are deduplicated in
first-occurrence order (pandas sorts them; column order is irrelevant to
every property proved here). -/
def aggRows (rows : List (String × (Nat → ℚ))) (mask : List Bool) :
    List (String × (Nat → ℚ)) :=
  let sel := selectRows rows mask
  ((sel.map Prod.fst).dedup).map
    (fun c => (c, fun t => ((sel.filter (fun r => decide (r.1 = c))).map (fun r => r.2 t)).sum / 1000))

/-- The concatenated per-carrier table p_by_carrier (lines 75-83):
generators, then storage units, then stores, each aggregated with its own
region mask; concat keeps the blocks side by side, so equal carrier labels
from different asset classes stay distinct columns. -/
def p_by_carrier (n : Network) (regions : Option (List String)) :
    List (String × (Nat → ℚ)) :=
  aggRows (n.generators.map (fun g => (g.carrier, g.p)))
      (regionMask (n.generators.map (fun g => g.bus)) regions)
    ++ aggRows (n.storage_units.map (fun s => (s.carrier, s.p)))
      (regionMask (n.storage_units.map (fun s => s.bus)) regions)
    ++ aggRows (n.stores.map (fun s => (s.carrier, s.p)))
      (regionMask (n.stores.map (fun s => s.bus)) regions)

/-- Snapshots falling inside the inclusive window, the row index of the
pandas .loc[start:end] slice over the sorted snapshot index. -/
def sliceTimes (n : Network) (s e : Nat) : List Nat :=
  n.snapshots.filter (fun t => decide (s ≤ t) && decide (t ≤ e))

/-- The zero-activity column labels of line 105: the labels of the columns
whose absolute sum OVER THE SLICED WINDOW is exactly zero. -/
def zeroLabels (n : Network) (regions : Option (List String)) (s e : Nat) :
    List String :=
  ((p_by_carrier n regions).filter
    (fun c => decide (((sliceTimes n s e).map (fun t => |c.2 t|)).sum = 0))).map Prod.fst

/-- The sliced table after the drop of line 106.  The pandas drop with a
column-label list is LABEL-based: it removes every column whose label is in
the zero set, so when a carrier label is duplicated across asset classes a
nonzero column sharing a zero twin's label is dropped as well. -/
def keptCols (n : Network) (regions : Option (List String)) (s e : Nat) :
    List (String × (Nat → ℚ)) :=
  (p_by_carrier n regions).filter
    (fun c => !(zeroLabels n regions s e).contains c.1)

/-- Net interchange into the region at one timestamp (lines 110-114): line
flow p0 summed over lines with bus1 inside and bus0 outside, plus line flow
p1 over lines with bus0 inside and bus1 outside, plus the same two sums over
links, all divided by 1000. -/
def importsAt (n : Network) (region_buses : List String) (t : Nat) : ℚ :=
  let ac :=
    ((n.lines.filter (fun l => region_buses.contains l.bus1 && !region_buses.contains l.bus0)).map
      (fun l => l.p0 t)).sum
    + ((n.lines.filter (fun l => region_buses.contains l.bus0 && !region_buses.contains l.bus1)).map
      (fun l => l.p1 t)).sum
  let dc :=
    ((n.links.filter (fun l => region_buses.contains l.bus1 && !region_buses.contains l.bus0)).map
      (fun l => l.p0 t)).sum
    + ((n.links.filter (fun l => region_buses.contains l.bus0 && !region_buses.contains l.bus1)).map
      (fun l => l.p1 t)).sum
  (ac + dc) / 1000

/-- Insert-if-absent of the synthetic registry row (lines 115-116). -/
def insertCarrier (carriers : List (String × String)) : List (String × String) :=
  if carriers.any (fun r => decide (r.1 = "Imports/Exports")) then carriers
  else carriers ++ [("Imports/Exports", "#7f7f7f")]

/-- Truthiness of the Python regions argument as tested on line 119:
None and the empty list are falsy, a nonempty list is truthy. -/
def regionsTruthy (regions : Option (List String)) : Bool :=
  match regions with
  | some rs => !rs.isEmpty
  | none => false

/-- Load series value at one timestamp (lines 119-123, before the division
of line 124): when the regions argument is truthy, sum p_set over the loads
at a region bus; otherwise sum p_set over every load.  (Every load row
carries its p_set column, so the membership test of line 120 against the
p_set table is identically true.) -/
def loadAt (n : Network) (regions : Option (List String)) (t : Nat) : ℚ :=
  if regionsTruthy regions then
    match regions with
    | some rs => ((n.loads.filter (fun ld => rs.contains ld.bus)).map (fun ld => ld.p_set t)).sum
    | none => ((n.loads).map (fun ld => ld.p_set t)).sum
  else ((n.loads).map (fun ld => ld.p_set t)).sum

/-- The fixed renewable carrier set of line 128. -/
def vre : List String := ["Solar", "Wind", "Rooftop Solar"]

/-- The combined mask of line 129: region mask AND carrier in the
renewable set. -/
def vreMask (gens : List Generator) (gen_mask : List Bool) : List Bool :=
  List.zipWith (fun a b => a && b) gen_mask (gens.map (fun g => vre.contains g.carrier))

/-- Curtailment value at one timestamp (lines 130-136): availability
fraction times nameplate, minus dispatch, clipped below at zero PER
GENERATOR, then summed and divided by 1000. -/
def curtailAt (gens : List Generator) (gen_mask : List Bool) (t : Nat) : ℚ :=
  let sel := selectRows gens (vreMask gens gen_mask)
  let avail := sel.map (fun g => g.p_max_pu t * g.p_nom)
  let disp := sel.map (fun g => g.p t)
  let clipped := (List.zipWith (fun a d => a - d) avail disp).map (fun x => max x 0)
  clipped.sum / 1000

/-- The series the pipeline hands to the chart renderer, with every column
evaluated on the sliced snapshot index. -/
structure DispatchOutput where
  p_slice : List (String × List ℚ)
  load_series : List ℚ
  curtail : Option (List ℚ)
deriving DecidableEq

/-- The aggregation pipeline of plot_dispatch (plot_dispatch.py lines
51-138), stopping at the renderer boundary: returns the output series
together with the network, whose carrier registry is the only field that
may change (the guarded insertion of the synthetic row).  The load series
is sliced and divided by 1000 as on line 124. -/
def plot_dispatch (n : Network) (time : String) (days : Option Nat)
    (regions : Option (List String)) (show_imports show_curtailment : Bool) :
    Except ParseError (DispatchOutput × Network) :=
  match resolve time days with
  | Except.error err => Except.error err
  | Except.ok (s, e) =>
    let ts := sliceTimes n s e
    let kept := keptCols n regions s e
    let cols :=
      if show_imports then
        kept ++ [("Imports/Exports", fun t => importsAt n (regionBuses n regions) t)]
      else kept
    Except.ok
      (⟨cols.map (fun c => (c.1, ts.map c.2)),
        ts.map (fun t => loadAt n regions t / 1000),
        if show_curtailment then
          some (ts.map (fun t =>
            curtailAt n.generators (regionMask (n.generators.map (fun g => g.bus)) regions) t))
        else none⟩,
       { n with carriers := if show_imports then insertCarrier n.carriers else n.carriers })

/-- First hour of 2024 on the absolute hourly grid. -/
def H2024 : Nat := hoursOf 2024 1 1 0

/-- A coal generator at bus A dispatching a constant 50. -/
def gCoal : Generator := ⟨"g1", "A", "Coal", 100, fun _ => 50, fun _ => 1⟩

/-- A line between buses A and B carrying 5 out of A. -/
def lineAB : Branch := ⟨"l1", "A", "B", fun _ => 5, fun _ => -5⟩

/-- A load of 40 at bus A. -/
def loadA : LoadRow := ⟨"d1", "A", fun _ => 40⟩

/-- A small solved network with one generator, one line, one load and a
single snapshot at the first hour of 2024. -/
def cnet : Network :=
  ⟨["A", "B"], [gCoal], [], [], [lineAB], [], [loadA],
   [("Coal", "#333333")], [H2024]⟩

/-- Last hour of 2024 on the absolute hourly grid. -/
def E2024 : Nat := hoursOf 2024 12 31 23

/-- The network after the pipeline's only side effect on cnet. -/
def cnet1 : Network := { cnet with carriers := insertCarrier cnet.carriers }

/-- The output the pipeline produces on cnet for the year-2024 window with
imports shown and curtailment off. -/
def cnetOut : DispatchOutput :=
  ⟨(keptCols cnet none H2024 E2024
      ++ [("Imports/Exports", fun t => importsAt cnet (regionBuses cnet none) t)]).map
        (fun c => (c.1, (sliceTimes cnet H2024 E2024).map c.2)),
    (sliceTimes cnet H2024 E2024).map (fun t => loadAt cnet none t / 1000),
    none⟩

lemma sum_map_div {α : Type} (l : List α) (g : α → ℚ) (c : ℚ) :
    (l.map (fun x => g x / c)).sum = (l.map g).sum / c := by
  induction l with
  | nil => simp
  | cons a t ih => simp [ih, add_div]

lemma sum_filter_not {α : Type} (l : List α) (p : α → Bool) (v : α → ℚ) :
    ((l.filter p).map v).sum + ((l.filter (fun a => !p a)).map v).sum = (l.map v).sum := by
  induction l with
  | nil => simp
  | cons a t ih =>
    cases h : p a <;> simp [List.filter_cons, h] <;> linarith [ih]

lemma filter_filter_not {α : Type} (p q : α → Bool) (hpq : ∀ a, q a = true → p a = false) :
    ∀ l : List α, (l.filter (fun a => !p a)).filter q = l.filter q := by
  intro l
  induction l with
  | nil => rfl
  | cons a t ih =>
    cases hq : q a
    · cases hp : p a <;> simp [List.filter_cons, hq, hp, ih]
    · have hp : p a = false := hpq a hq
      simp [List.filter_cons, hq, hp, ih]

lemma sum_fibers {α κ : Type} [DecidableEq κ] (key : α → κ) (v : α → ℚ) :
    ∀ (ks : List κ) (l : List α), ks.Nodup → (∀ a ∈ l, key a ∈ ks) →
      (ks.map (fun c => ((l.filter (fun a => decide (key a = c))).map v).sum)).sum
        = (l.map v).sum := by
  intro ks
  induction ks with
  | nil =>
    intro l _ hcov
    cases l with
    | nil => simp
    | cons a t => exact absurd (hcov a (List.mem_cons_self a t)) (List.not_mem_nil _)
  | cons c ks ih =>
    intro l hnd hcov
    have hc : c ∉ ks := (List.nodup_cons.mp hnd).1
    have hnd2 : ks.Nodup := (List.nodup_cons.mp hnd).2
    have htail :
        (ks.map (fun c2 => ((l.filter (fun a => decide (key a = c2))).map v).sum)).sum
          = (((l.filter (fun a => !decide (key a = c))).map v).sum) := by
      have hmc : ∀ c2 ∈ ks,
          ((l.filter (fun a => decide (key a = c2))).map v).sum
            = (((l.filter (fun a => !decide (key a = c))).filter
                (fun a => decide (key a = c2))).map v).sum := by
        intro c2 hc2
        have hne : c2 ≠ c := fun h => hc (h ▸ hc2)
        rw [filter_filter_not (fun a => decide (key a = c)) (fun a => decide (key a = c2))
          (fun a ha => by
            have h2 : key a = c2 := of_decide_eq_true ha
            exact decide_eq_false (fun h => hne (h2 ▸ h))) l]
      rw [List.map_congr_left hmc]
      exact ih (l.filter (fun a => !decide (key a = c))) hnd2
        (fun a ha => by
          have hmem := List.mem_filter.mp ha
          have hkey := hcov a hmem.1
          have hne : key a ≠ c := by
            intro h
            simp [h] at hmem
          rcases List.mem_cons.mp hkey with h | h
          · exact absurd h hne
          · exact h)
    simp only [List.map_cons, List.sum_cons, htail]
    exact sum_filter_not l (fun a => decide (key a = c)) v

lemma aggRows_sum (rows : List (String × (Nat → ℚ))) (mask : List Bool) (t : Nat) :
    ((aggRows rows mask).map (fun c => c.2 t)).sum
      = ((selectRows rows mask).map (fun r => r.2 t)).sum / 1000 := by
  unfold aggRows
  simp only [List.map_map, Function.comp_def]
  rw [sum_map_div]
  congr 1
  exact sum_fibers (Prod.fst : String × (Nat → ℚ) → String)
    (fun (r : String × (Nat → ℚ)) => r.2 t)
    ((selectRows rows mask).map Prod.fst).dedup (selectRows rows mask)
    (List.nodup_dedup _)
    (fun a ha => List.mem_dedup.mpr (List.mem_map_of_mem Prod.fst ha))

lemma eq_zero_of_abs_sum_eq_zero (ts : List Nat) (f : Nat → ℚ)
    (h : (ts.map (fun t => |f t|)).sum = 0) : ∀ t ∈ ts, f t = 0 := by
  induction ts with
  | nil => simp
  | cons a l ih =>
    simp only [List.map_cons, List.sum_cons] at h
    have h1 : 0 ≤ |f a| := abs_nonneg _
    have h2 : 0 ≤ (l.map (fun t => |f t|)).sum := by
      apply List.sum_nonneg
      intro x hx
      rcases List.mem_map.mp hx with ⟨t, _, rfl⟩
      exact abs_nonneg _
    intro t ht
    rcases List.mem_cons.mp ht with rfl | ht2
    · exact abs_eq_zero.mp (by linarith)
    · exact ih (by linarith) t ht2

lemma selectRows_map {α β : Type} (f : α → β) :
    ∀ (l : List α) (m : List Bool), selectRows (l.map f) m = (selectRows l m).map f := by
  intro l
  induction l with
  | nil => intro m; cases m <;> rfl
  | cons a t ih =>
    intro m
    cases m with
    | nil => rfl
    | cons b bs => cases b <;> simp [selectRows, ih]

lemma selectRows_of_all_false {α : Type} :
    ∀ (l : List α) (ms : List Bool), (∀ b ∈ ms, b = false) → selectRows l ms = [] := by
  intro l
  induction l with
  | nil => intro ms _; cases ms <;> rfl
  | cons a t ih =>
    intro ms hms
    cases ms with
    | nil => rfl
    | cons b bs =>
      have hb : b = false := hms b (List.mem_cons_self b bs)
      subst hb
      simp only [selectRows, if_false, Bool.false_eq_true, ite_false]
      exact ih bs (fun x hx => hms x (List.mem_cons_of_mem _ hx))

lemma selectRows_and_mask {α : Type} (f : α → Bool) :
    ∀ (l : List α) (m : List Bool),
      selectRows l (List.zipWith (fun a b => a && b) m (l.map f))
        = (selectRows l m).filter f := by
  intro l
  induction l with
  | nil => intro m; cases m <;> rfl
  | cons a t ih =>
    intro m
    cases m with
    | nil => rfl
    | cons b bs =>
      cases b
      · simp [selectRows, ih]
      · cases hf : f a <;> simp [selectRows, List.filter_cons, hf, ih]

lemma selectRows_vreMask (gens : List Generator) (gen_mask : List Bool) :
    selectRows gens (vreMask gens gen_mask)
      = (selectRows gens gen_mask).filter (fun g => vre.contains g.carrier) := by
  unfold vreMask
  exact selectRows_and_mask (fun g => vre.contains g.carrier) gens gen_mask

lemma clip_sum (l : List Generator) (t : Nat) :
    ((List.zipWith (fun a d => a - d) (l.map (fun g => g.p_max_pu t * g.p_nom))
        (l.map (fun g => g.p t))).map (fun x => max x 0)).sum
      = (l.map (fun g => max 0 (g.p_max_pu t * g.p_nom - g.p t))).sum := by
  induction l with
  | nil => rfl
  | cons a t2 ih =>
    simp only [List.map_cons, List.zipWith_cons_cons, List.sum_cons, ih, max_comm]

lemma curtailAt_spec (gens : List Generator) (gen_mask : List Bool) (t : Nat) :
    curtailAt gens gen_mask t
      = (((selectRows gens gen_mask).filter (fun g => vre.contains g.carrier)).map
          (fun g => max 0 (g.p_max_pu t * g.p_nom - g.p t))).sum / 1000 := by
  simp only [curtailAt]
  rw [selectRows_vreMask, clip_sum]

lemma insertCarrier_idem (c : List (String × String)) :
    insertCarrier (insertCarrier c) = insertCarrier c := by
  unfold insertCarrier
  by_cases h : c.any (fun r => decide (r.1 = "Imports/Exports")) = true
  · simp [h]
  · simp only [h, if_false, Bool.false_eq_true, ite_false]
    have hpresent :
        (c ++ [("Imports/Exports", "#7f7f7f")]).any
          (fun r => decide (r.1 = "Imports/Exports")) = true := by
      simp [List.any_append]
    simp [h, hpresent]

/-- A wind generator with nameplate 100, availability fraction 0.8 and
dispatch 50. -/
def gWind50 : Generator := ⟨"w", "A", "Wind", 100, fun _ => 50, fun _ => (0.8 : ℚ)⟩

/-- The same wind generator over-dispatching at 90. -/
def gWind90 : Generator := ⟨"w", "A", "Wind", 100, fun _ => 90, fun _ => (0.8 : ℚ)⟩

/-- The output the pipeline produces on cnet for the year-2024 window with
imports off and curtailment on. -/
def cnetOutC : DispatchOutput :=
  ⟨(keptCols cnet none H2024 E2024).map
      (fun c => (c.1, (sliceTimes cnet H2024 E2024).map c.2)),
    (sliceTimes cnet H2024 E2024).map (fun t => loadAt cnet none t / 1000),
    some ((sliceTimes cnet H2024 E2024).map (fun t =>
      curtailAt cnet.generators (regionMask (cnet.generators.map (fun g => g.bus)) none) t))⟩

/-- C1: the Time Window Resolver parses a year, year-month or full-date
grain into start = the grain start (Jan 1 00:00, day 1 00:00, or the parsed
instant); the end is chosen by priority: an explicit day count d gives
end = start + 24 d − 1 sampling intervals, else a year grain ends Dec 31
23:00, a month grain ends on the last calendar day of the month at 23:00,
and a bare date ends at start + 23 hours.  Concretely, 2024 resolves to
[2024-01-01T00, 2024-12-31T23], 2024-07 to [2024-07-01T00, 2024-07-31T23],
2024-07-15 with 3 days to [2024-07-15T00, 2024-07-17T23] (72 hourly
samples), and 2024-07-15 alone ends at 2024-07-15T23. -/
theorem c1_time_window_resolver :
    (∀ (str ys : String) (y : Nat) (days : Option Nat), parseNat ys = some y →
      resolveParts str [ys] days
        = Except.ok (hoursOf y 1 1 0,
            match days with
            | some d => hoursOf y 1 1 0 + 24 * d - 1
            | none => hoursOf y 12 31 23)) ∧
    (∀ (str ys ms : String) (y m : Nat) (days : Option Nat),
      parseNat ys = some y → parseNat ms = some m → 1 ≤ m → m ≤ 12 →
      resolveParts str [ys, ms] days
        = Except.ok (hoursOf y m 1 0,
            match days with
            | some d => hoursOf y m 1 0 + 24 * d - 1
            | none => hoursOf y m (daysInMonth y m) 23)) ∧
    (∀ (str ys ms ds : String) (y m d : Nat) (days : Option Nat),
      parseNat ys = some y → parseNat ms = some m → parseNat ds = some d →
      1 ≤ m → m ≤ 12 → 1 ≤ d → d ≤ daysInMonth y m →
      resolveParts str [ys, ms, ds] days
        = Except.ok (hoursOf y m d 0,
            match days with
            | some k => hoursOf y m d 0 + 24 * k - 1
            | none => hoursOf y m d 0 + 23)) ∧
    (∀ (s : String) (days : Option Nat),
      resolve s days = resolveParts s (splitDash s) days) ∧
    resolve "2024" none = Except.ok (hoursOf 2024 1 1 0, hoursOf 2024 12 31 23) ∧
    resolve "2024-07" none = Except.ok (hoursOf 2024 7 1 0, hoursOf 2024 7 31 23) ∧
    resolve "2024-07-15" (some 3)
      = Except.ok (hoursOf 2024 7 15 0, hoursOf 2024 7 17 23) ∧
    hoursOf 2024 7 17 23 + 1 - hoursOf 2024 7 15 0 = 72 ∧
    resolve "2024-07-15" none
      = Except.ok (hoursOf 2024 7 15 0, hoursOf 2024 7 15 23) := by
  refine ⟨?_, ?_, ?_, fun s days => rfl,
    by decide, by decide, by decide, by decide, by decide⟩
  · intro str ys y days hy
    cases days <;> simp [resolveParts, hy]
  · intro str ys ms y m days hy hm h1 h2
    cases days <;> simp [resolveParts, hy, hm, h1, h2]
  · intro str ys ms ds y m d days hy hm hd h1 h2 h3 h4
    cases days <;> simp [resolveParts, hy, hm, hd, h1, h2, h3, h4]

/-- C1 witness: the year-grain rule instantiated at the string 2025. -/
theorem c1_time_window_resolver_witness :
    resolveParts "2025" ["2025"] none
      = Except.ok (hoursOf 2025 1 1 0, hoursOf 2025 12 31 23) :=
  c1_time_window_resolver.1 "2025" "2025" 2025 none (by decide)

/-- C2: the curtailment series value is the sum, over region-selected
generators with carrier in the fixed renewable set Solar/Wind/Rooftop
Solar, of max(0, availability fraction times nameplate minus dispatch),
divided by 1000, with the clip applied per generator before summing; the
pipeline emits exactly this series when curtailment is requested; for a
wind generator with nameplate 100, availability 0.8 and dispatch 50 the
clipped gap is 30, and with dispatch 90 it is 0, not −10. -/
theorem c2_curtailment_clip_then_sum :
    (∀ (gens : List Generator) (gen_mask : List Bool) (t : Nat),
      curtailAt gens gen_mask t
        = (((selectRows gens gen_mask).filter (fun g => vre.contains g.carrier)).map
            (fun g => max 0 (g.p_max_pu t * g.p_nom - g.p t))).sum / 1000) ∧
    (∀ (n : Network) (time : String) (days : Option Nat)
        (regions : Option (List String)) (si : Bool) (s e : Nat)
        (o : DispatchOutput) (n1 : Network),
      resolve time days = Except.ok (s, e) →
      plot_dispatch n time days regions si true = Except.ok (o, n1) →
      o.curtail = some ((sliceTimes n s e).map (fun t =>
        curtailAt n.generators
          (regionMask (n.generators.map (fun g => g.bus)) regions) t))) ∧
    (max 0 (gWind50.p_max_pu 0 * gWind50.p_nom - gWind50.p 0) = 30
      ∧ curtailAt [gWind50] [true] 0 = 30 / 1000) ∧
    (max 0 (gWind90.p_max_pu 0 * gWind90.p_nom - gWind90.p 0) = 0
      ∧ curtailAt [gWind90] [true] 0 = 0) := by
  have h50 : max (0 : ℚ) ((0.8 : ℚ) * 100 - 50) = 30 := by
    have : ((0.8 : ℚ) * 100 - 50) = 30 := by norm_num
    rw [this]
    exact max_eq_right (by norm_num)
  have h90 : max (0 : ℚ) ((0.8 : ℚ) * 100 - 90) = 0 := by
    have : ((0.8 : ℚ) * 100 - 90) = -10 := by norm_num
    rw [this]
    exact max_eq_left (by norm_num)
  refine ⟨curtailAt_spec, ?_, ⟨h50, ?_⟩, ⟨h90, ?_⟩⟩
  · intro n time days regions si s e o n1 hres h
    simp only [plot_dispatch, hres] at h
    have h2 := ((Except.ok.injEq _ _).mp h)
    have h3 := congrArg Prod.fst h2
    dsimp only at h3
    rw [← h3]
    simp
  · have hsel : selectRows [gWind50] (vreMask [gWind50] [true]) = [gWind50] := rfl
    simp only [curtailAt_spec]
    rw [show ((selectRows [gWind50] [true]).filter (fun g => vre.contains g.carrier))
        = [gWind50] from rfl]
    simp [gWind50, h50]
  · have hsel : selectRows [gWind90] (vreMask [gWind90] [true]) = [gWind90] := rfl
    simp only [curtailAt_spec]
    rw [show ((selectRows [gWind90] [true]).filter (fun g => vre.contains g.carrier))
        = [gWind90] from rfl]
    simp [gWind90, h90]

/-- C2 witness: the pipeline conjunct instantiated on the concrete network
cnet with the year-2024 window and curtailment requested. -/
theorem c2_curtailment_clip_then_sum_witness :
    cnetOutC.curtail = some ((sliceTimes cnet H2024 E2024).map (fun t =>
      curtailAt cnet.generators
        (regionMask (cnet.generators.map (fun g => g.bus)) none) t)) :=
  c2_curtailment_clip_then_sum.2.1 cnet "2024" none none false H2024 E2024
    cnetOutC cnet (by decide) (by rfl)

/-- The spec wording of the interchange rule, written independently of the
pipeline: per transport asset an if-then-else on the boundary test instead
of a filtered sum. -/
def interchangeSpec (n : Network) (R : List String) (t : Nat) : ℚ :=
  (((n.lines.map (fun l => if l.bus1 ∈ R ∧ l.bus0 ∉ R then l.p0 t else 0)).sum
      + (n.lines.map (fun l => if l.bus0 ∈ R ∧ l.bus1 ∉ R then l.p1 t else 0)).sum)
    + ((n.links.map (fun l => if l.bus1 ∈ R ∧ l.bus0 ∉ R then l.p0 t else 0)).sum
      + (n.links.map (fun l => if l.bus0 ∈ R ∧ l.bus1 ∉ R then l.p1 t else 0)).sum)) / 1000

lemma sum_filter_ite {α : Type} (p : α → Bool) (v : α → ℚ) (l : List α) :
    ((l.filter p).map v).sum = (l.map (fun a => if p a = true then v a else 0)).sum := by
  induction l with
  | nil => rfl
  | cons a t ih => cases h : p a <;> simp [List.filter_cons, h, ih]

lemma importsAt_spec (n : Network) (R : List String) (t : Nat) :
    importsAt n R t = interchangeSpec n R t := by
  unfold importsAt interchangeSpec
  simp only [sum_filter_ite]
  simp [List.contains, Bool.and_eq_true, Bool.not_eq_true', decide_eq_true_eq,
    decide_eq_false_iff_not]

/-- C3: when imports are requested, the pipeline appends one column labeled
Imports/Exports to the aggregated-carrier table, whose value at every
timestamp is the boundary-crossing line flow (p0 over lines entering the
region set at bus1, p1 over lines entering at bus0) plus the identically
formed link contribution, divided by 1000; with the region set equal to all
buses the series is identically zero. -/
theorem c3_imports_exports :
    (∀ (n : Network) (time : String) (days : Option Nat)
        (regions : Option (List String)) (sc : Bool) (s e : Nat)
        (o : DispatchOutput) (n1 : Network),
      resolve time days = Except.ok (s, e) →
      plot_dispatch n time days regions true sc = Except.ok (o, n1) →
      o.p_slice
        = (keptCols n regions s e).map
            (fun c => (c.1, (sliceTimes n s e).map c.2))
          ++ [("Imports/Exports",
                (sliceTimes n s e).map
                  (fun t => interchangeSpec n (regionBuses n regions) t))]) ∧
    (∀ (n : Network) (t : Nat),
      (∀ l ∈ n.lines, l.bus0 ∈ n.buses ∧ l.bus1 ∈ n.buses) →
      (∀ l ∈ n.links, l.bus0 ∈ n.buses ∧ l.bus1 ∈ n.buses) →
      importsAt n (regionBuses n none) t = 0) := by
  constructor
  · intro n time days regions sc s e o n1 hres h
    simp only [plot_dispatch, hres, if_true] at h
    have h2 := (Except.ok.injEq _ _).mp h
    have h3 := congrArg Prod.fst h2
    dsimp only at h3
    rw [← h3]
    simp only [List.map_append, List.map_cons, List.map_nil, List.append_cancel_left_eq,
      List.cons.injEq, Prod.mk.injEq, true_and, and_true]
    exact List.map_congr_left (fun t _ => importsAt_spec n (regionBuses n regions) t)
  · intro n t hlines hlinks
    show importsAt n n.buses t = 0
    unfold importsAt
    have hf : ∀ (br : List Branch), (∀ l ∈ br, l.bus0 ∈ n.buses ∧ l.bus1 ∈ n.buses) →
        (br.filter (fun l => n.buses.contains l.bus1 && !n.buses.contains l.bus0) = []
          ∧ br.filter (fun l => n.buses.contains l.bus0 && !n.buses.contains l.bus1) = []) := by
      intro br hbr
      constructor <;>
        (rw [List.filter_eq_nil_iff]
         intro l hl
         have h0 := (hbr l hl).1
         have h1 := (hbr l hl).2
         simp [List.contains, h0, h1])
    rw [(hf n.lines hlines).1, (hf n.lines hlines).2,
      (hf n.links hlinks).1, (hf n.links hlinks).2]
    norm_num

/-- C3 witness: the all-buses region set on the concrete network cnet gives
zero interchange. -/
theorem c3_imports_exports_witness :
    ((∀ l ∈ cnet.lines, l.bus0 ∈ cnet.buses ∧ l.bus1 ∈ cnet.buses)
      ∧ (∀ l ∈ cnet.links, l.bus0 ∈ cnet.buses ∧ l.bus1 ∈ cnet.buses))
    ∧ importsAt cnet (regionBuses cnet none) 0 = 0 :=
  ⟨⟨by decide, by decide⟩, c3_imports_exports.2 cnet 0 (by decide) (by decide)⟩

/-- A generator idle at every hour, labeled with the same Battery carrier
as a storage unit. -/
def gBatteryZero : Generator := ⟨"gb", "A", "Battery", 100, fun _ => 0, fun _ => 1⟩

/-- A storage unit dispatching a constant 1000, sharing the Battery carrier
label with the idle generator. -/
def sBattery : StorageRow := ⟨"sb", "A", "Battery", fun _ => 1000⟩

/-- A network in which the carrier label Battery is duplicated across the
generator and storage-unit asset classes: the generator column is all-zero,
the storage column is not. -/
def n4 : Network :=
  ⟨["A"], [gBatteryZero], [sBattery], [], [], [], [],
   [("Battery", "#888888")], [H2024]⟩

/-- C4 counterexample: on n4, where the Battery label is duplicated across
asset classes, the zero generator column puts Battery into the zero label
set and the label-based drop removes the NONZERO storage column too: the
kept table is empty and its per-timestamp sum is 0, while the selected
assets' power sum divided by 1000 is 1, so the claimed conservation fails. -/
theorem c4_counterexample :
    H2024 ∈ sliceTimes n4 H2024 E2024 ∧
    (p_by_carrier n4 none).map Prod.fst = ["Battery", "Battery"] ∧
    keptCols n4 none H2024 E2024 = [] ∧
    ((keptCols n4 none H2024 E2024).map (fun c => c.2 H2024)).sum = 0 ∧
    (((selectRows n4.generators
          (regionMask (n4.generators.map (fun g => g.bus)) none)).map
        (fun g => g.p H2024)).sum
      + ((selectRows n4.storage_units
          (regionMask (n4.storage_units.map (fun r => r.bus)) none)).map
        (fun r => r.p H2024)).sum
      + ((selectRows n4.stores
          (regionMask (n4.stores.map (fun r => r.bus)) none)).map
        (fun r => r.p H2024)).sum) / 1000 = 1 ∧
    (0 : ℚ) ≠ 1 := by
  have hslice : sliceTimes n4 H2024 E2024 = [H2024] := by decide
  have hkept : keptCols n4 none H2024 E2024 = [] := by
    unfold keptCols zeroLabels
    rw [hslice]
    simp [p_by_carrier, aggRows, selectRows, regionMask, n4, gBatteryZero, sBattery]
  refine ⟨by decide, by rfl, hkept, ?_, ?_, by norm_num⟩
  · rw [hkept]
    rfl
  · simp [selectRows, regionMask, n4, gBatteryZero, sBattery]

/-- C4 amended: when no carrier label is shared between the aggregated
columns (labels pairwise distinct, i.e. no carrier duplicated across asset
classes), the sum across all kept carrier columns at every timestamp of
the sliced window equals the sum of the selected assets' power at that
timestamp divided by 1000; with a duplicated label the label-based drop
can remove a nonzero column and break conservation. -/
theorem c4_mass_conservation :
    ∀ (n : Network) (regions : Option (List String)) (s e t : Nat),
      ((p_by_carrier n regions).map Prod.fst).Nodup →
      t ∈ sliceTimes n s e →
      ((keptCols n regions s e).map (fun c => c.2 t)).sum
        = (((selectRows n.generators
                (regionMask (n.generators.map (fun g => g.bus)) regions)).map
              (fun g => g.p t)).sum
           + ((selectRows n.storage_units
                (regionMask (n.storage_units.map (fun r => r.bus)) regions)).map
              (fun r => r.p t)).sum
           + ((selectRows n.stores
                (regionMask (n.stores.map (fun r => r.bus)) regions)).map
              (fun r => r.p t)).sum) / 1000 := by
  intro n regions s e t hnd ht
  have hdrop :
      (((p_by_carrier n regions).filter
          (fun c => !(!(zeroLabels n regions s e).contains c.1))).map
        (fun c => c.2 t)).sum = 0 := by
    apply List.sum_eq_zero
    intro x hx
    rcases List.mem_map.mp hx with ⟨c, hc, rfl⟩
    have hmem := List.mem_filter.mp hc
    have hb : c.1 ∈ zeroLabels n regions s e := by
      have h2 := hmem.2
      simp only [Bool.not_not, List.contains, List.elem_eq_mem, decide_eq_true_eq] at h2
      exact h2
    unfold zeroLabels at hb
    rcases List.mem_map.mp hb with ⟨c2, hc2, heq⟩
    have hc2f := List.mem_filter.mp hc2
    have hzero : ((sliceTimes n s e).map (fun u => |c2.2 u|)).sum = 0 := by
      have := hc2f.2
      simpa using this
    have hcc : c2 = c := List.inj_on_of_nodup_map hnd hc2f.1 hmem.1 heq
    rw [← hcc]
    exact eq_zero_of_abs_sum_eq_zero (sliceTimes n s e) c2.2 hzero t ht
  have hsplit := sum_filter_not (p_by_carrier n regions)
    (fun c => !(zeroLabels n regions s e).contains c.1)
    (fun c => c.2 t)
  have hkept : ((keptCols n regions s e).map (fun c => c.2 t)).sum
      = ((p_by_carrier n regions).map (fun c => c.2 t)).sum := by
    unfold keptCols
    linarith [hsplit, hdrop]
  rw [hkept]
  unfold p_by_carrier
  rw [List.map_append, List.map_append, List.sum_append, List.sum_append,
    aggRows_sum, aggRows_sum, aggRows_sum,
    selectRows_map, selectRows_map, selectRows_map]
  simp only [List.map_map, Function.comp_def]
  rw [div_add_div_same, div_add_div_same]

/-- C4 witness: conservation instantiated at the first 2024 hour on the
concrete network cnet, whose single carrier label is trivially
duplicate-free. -/
theorem c4_mass_conservation_witness :
    ((p_by_carrier cnet none).map Prod.fst).Nodup ∧
    H2024 ∈ sliceTimes cnet H2024 E2024 ∧
    ((keptCols cnet none H2024 E2024).map (fun c => c.2 H2024)).sum
      = (((selectRows cnet.generators
              (regionMask (cnet.generators.map (fun g => g.bus)) none)).map
            (fun g => g.p H2024)).sum
         + ((selectRows cnet.storage_units
              (regionMask (cnet.storage_units.map (fun r => r.bus)) none)).map
            (fun r => r.p H2024)).sum
         + ((selectRows cnet.stores
              (regionMask (cnet.stores.map (fun r => r.bus)) none)).map
            (fun r => r.p H2024)).sum) / 1000 :=
  ⟨by decide, by decide,
   c4_mass_conservation cnet none H2024 E2024 H2024 (by decide) (by decide)⟩

/-- A coal generator that is idle at the first 2024 hour but dispatches
1000 one day later. -/
def gCoalLate : Generator :=
  ⟨"g2", "A", "Coal", 100, fun t => if t = H2024 then 0 else 1000, fun _ => 1⟩

/-- A network whose only generator is active outside the first day of 2024
but idle inside it; snapshots at the first hour and one day later. -/
def n5 : Network :=
  ⟨["A"], [gCoalLate], [], [], [], [], [], [("Coal", "#333333")],
   [H2024, H2024 + 24]⟩

/-- C5 counterexample: on n5 with the one-day window 2024-01-01, the Coal
column has nonzero total absolute magnitude over the FULL snapshot sequence
(its per-column full-series magnitudes are [1]), yet it is dropped from the
aggregated output, because the code computes the drop criterion over the
sliced window only; the claim says such a column is retained. -/
theorem c5_counterexample :
    resolve "2024-01-01" none = Except.ok (H2024, H2024 + 23) ∧
    (p_by_carrier n5 none).map Prod.fst = ["Coal"] ∧
    (p_by_carrier n5 none).map
        (fun c => (n5.snapshots.map (fun u => |c.2 u|)).sum) = [1] ∧
    (keptCols n5 none H2024 (H2024 + 23)).map Prod.fst = [] := by
  have hne : H2024 + 24 ≠ H2024 := by omega
  refine ⟨by decide, by rfl, ?_, ?_⟩
  · simp [p_by_carrier, aggRows, selectRows, regionMask, n5, gCoalLate, hne]
  · have hslice : sliceTimes n5 H2024 (H2024 + 23) = [H2024] := by decide
    unfold keptCols zeroLabels
    rw [hslice]
    simp [p_by_carrier, aggRows, selectRows, regionMask, n5, gCoalLate]

/-- C5 amended: a carrier column is dropped from the aggregated output
exactly when SOME column bearing the same carrier label has total absolute
magnitude over the SLICED window exactly zero: a carrier that is zero
inside the requested window is dropped even if it is nonzero outside it,
and a nonzero column is also dropped when a same-labeled column from
another asset class is zero over the window. -/
theorem c5_label_based_drop :
    ∀ (n : Network) (regions : Option (List String)) (s e : Nat)
      (c : String × (Nat → ℚ)),
      c ∈ keptCols n regions s e
        ↔ (c ∈ p_by_carrier n regions
            ∧ ∀ c2 ∈ p_by_carrier n regions, c2.1 = c.1 →
                ((sliceTimes n s e).map (fun u => |c2.2 u|)).sum ≠ 0) := by
  intro n regions s e c
  constructor
  · intro h
    have h1 := (List.mem_filter.mp h).1
    have h2 := (List.mem_filter.mp h).2
    refine ⟨h1, ?_⟩
    intro c2 hc2 heq hsum
    have hmem : c.1 ∈ zeroLabels n regions s e := by
      unfold zeroLabels
      exact List.mem_map.mpr
        ⟨c2, List.mem_filter.mpr ⟨hc2, by simpa using hsum⟩, heq⟩
    simp [List.contains, hmem] at h2
  · intro hyp
    apply List.mem_filter.mpr
    refine ⟨hyp.1, ?_⟩
    have hnot : c.1 ∉ zeroLabels n regions s e := by
      intro hmem
      unfold zeroLabels at hmem
      rcases List.mem_map.mp hmem with ⟨c2, hc2, heq⟩
      have hf := List.mem_filter.mp hc2
      have hz : ((sliceTimes n s e).map (fun u => |c2.2 u|)).sum = 0 := by
        simpa using hf.2
      exact hyp.2 c2 hf.1 heq hz
    simp [List.contains, hnot]

/-- C6 counterexample: for the singleton generator table of cnet, the
selection computed from an EMPTY region list is all-false, not all-true,
and differs from the selection computed when the region set is
unspecified. -/
theorem c6_counterexample :
    regionMask (cnet.generators.map (fun g => g.bus)) (some [])
        ≠ regionMask (cnet.generators.map (fun g => g.bus)) none ∧
      regionMask (cnet.generators.map (fun g => g.bus)) (some []) = [false] := by
  constructor
  · decide
  · decide

/-- C6 amended: an empty region set is valid and raises no error, but the
generator, storage-unit and store selections it produces are all-FALSE
(zero assets selected), while the unspecified region set produces all-true
selections. -/
theorem c6_empty_region_all_false :
    ∀ (n : Network),
      regionMask (n.generators.map (fun g => g.bus)) (some [])
        = n.generators.map (fun _ => false) ∧
      regionMask (n.storage_units.map (fun r => r.bus)) (some [])
        = n.storage_units.map (fun _ => false) ∧
      regionMask (n.stores.map (fun r => r.bus)) (some [])
        = n.stores.map (fun _ => false) ∧
      regionMask (n.generators.map (fun g => g.bus)) none
        = n.generators.map (fun _ => true) ∧
      regionMask (n.storage_units.map (fun r => r.bus)) none
        = n.storage_units.map (fun _ => true) ∧
      regionMask (n.stores.map (fun r => r.bus)) none
        = n.stores.map (fun _ => true) := by
  intro n
  refine ⟨?_, ?_, ?_, ?_, ?_, ?_⟩ <;>
    simp [regionMask, List.map_map, Function.comp_def, List.contains]

lemma sliceTimes_set_carriers (n : Network) (cs : List (String × String)) (s e : Nat) :
    sliceTimes { n with carriers := cs } s e = sliceTimes n s e := rfl

lemma keptCols_set_carriers (n : Network) (cs : List (String × String))
    (regions : Option (List String)) (s e : Nat) :
    keptCols { n with carriers := cs } regions s e = keptCols n regions s e := rfl

lemma importsAt_set_carriers (n : Network) (cs : List (String × String))
    (R : List String) (t : Nat) :
    importsAt { n with carriers := cs } R t = importsAt n R t := rfl

lemma regionBuses_set_carriers (n : Network) (cs : List (String × String))
    (regions : Option (List String)) :
    regionBuses { n with carriers := cs } regions = regionBuses n regions := rfl

lemma loadAt_set_carriers (n : Network) (cs : List (String × String))
    (regions : Option (List String)) (t : Nat) :
    loadAt { n with carriers := cs } regions t = loadAt n regions t := rfl

lemma plot_dispatch_of_carriers (n : Network) (cs : List (String × String))
    (time : String) (days : Option Nat) (regions : Option (List String))
    (si sc : Bool) :
    plot_dispatch { n with carriers := cs } time days regions si sc
      = (plot_dispatch n time days regions si sc).map
          (fun p => (p.1, { n with carriers := if si then insertCarrier cs else cs })) := by
  cases hres : resolve time days <;>
    simp [plot_dispatch, hres, Except.map, sliceTimes_set_carriers, keptCols_set_carriers,
      importsAt_set_carriers, regionBuses_set_carriers, loadAt_set_carriers]

/-- C7: running the pipeline a second time on the network returned by a
first run, with identical arguments, again succeeds and returns exactly
the same output and the same network: the guarded registry insertion is
idempotent, so repetition neither errors nor duplicates the entry. -/
theorem c7_idempotent :
    ∀ (n : Network) (time : String) (days : Option Nat)
      (regions : Option (List String)) (si sc : Bool)
      (o : DispatchOutput) (n1 : Network),
      plot_dispatch n time days regions si sc = Except.ok (o, n1) →
      plot_dispatch n1 time days regions si sc = Except.ok (o, n1) := by
  intro n time days regions si sc o n1 h
  cases hres : resolve time days with
  | error err => simp [plot_dispatch, hres] at h
  | ok se =>
    obtain ⟨s, e⟩ := se
    have h0 := h
    simp only [plot_dispatch, hres] at h
    have h2 := (Except.ok.injEq _ _).mp h
    have hn := congrArg Prod.snd h2
    dsimp only at hn
    rw [← hn]
    rw [plot_dispatch_of_carriers n (if si = true then insertCarrier n.carriers else n.carriers)
      time days regions si sc]
    rw [h0]
    cases si <;> simp [Except.map, insertCarrier_idem]

/-- C7 witness: the second run on the concrete network cnet reproduces the
first run's output and network. -/
theorem c7_idempotent_witness :
    plot_dispatch cnet1 "2024" none none true false = Except.ok (cnetOut, cnet1) :=
  c7_idempotent cnet "2024" none none true false cnetOut cnet1 (by rfl)

/-- C8: the pipeline mutates no input entity: the returned network keeps
every field of the input network unchanged except the carrier registry,
which gains the single synthetic Imports/Exports row with its default
color exactly when imports are requested and the row is absent. -/
theorem c8_frame :
    ∀ (n : Network) (time : String) (days : Option Nat)
      (regions : Option (List String)) (si sc : Bool)
      (o : DispatchOutput) (n1 : Network),
      plot_dispatch n time days regions si sc = Except.ok (o, n1) →
      n1.buses = n.buses ∧ n1.generators = n.generators
        ∧ n1.storage_units = n.storage_units ∧ n1.stores = n.stores
        ∧ n1.lines = n.lines ∧ n1.links = n.links ∧ n1.loads = n.loads
        ∧ n1.snapshots = n.snapshots
        ∧ n1.carriers
            = (if si = true
                  ∧ n.carriers.any (fun r => decide (r.1 = "Imports/Exports")) = false
               then n.carriers ++ [("Imports/Exports", "#7f7f7f")]
               else n.carriers) := by
  intro n time days regions si sc o n1 h
  cases hres : resolve time days with
  | error err => simp [plot_dispatch, hres] at h
  | ok se =>
    obtain ⟨s, e⟩ := se
    simp only [plot_dispatch, hres] at h
    have h2 := (Except.ok.injEq _ _).mp h
    have hn := congrArg Prod.snd h2
    dsimp only at hn
    rw [← hn]
    refine ⟨rfl, rfl, rfl, rfl, rfl, rfl, rfl, rfl, ?_⟩
    show (if si = true then insertCarrier n.carriers else n.carriers) = _
    cases si with
    | false => simp
    | true =>
      cases hany : n.carriers.any (fun r => decide (r.1 = "Imports/Exports")) <;>
        simp [insertCarrier, hany]

/-- C8 witness: the frame condition instantiated on the concrete run over
cnet with imports requested. -/
theorem c8_frame_witness :
    cnet1.buses = cnet.buses ∧ cnet1.generators = cnet.generators
      ∧ cnet1.storage_units = cnet.storage_units ∧ cnet1.stores = cnet.stores
      ∧ cnet1.lines = cnet.lines ∧ cnet1.links = cnet.links
      ∧ cnet1.loads = cnet.loads ∧ cnet1.snapshots = cnet.snapshots
      ∧ cnet1.carriers
          = (if true = true
                ∧ cnet.carriers.any (fun r => decide (r.1 = "Imports/Exports")) = false
             then cnet.carriers ++ [("Imports/Exports", "#7f7f7f")]
             else cnet.carriers) :=
  c8_frame cnet "2024" none none true false cnetOut cnet1 (by rfl)

/-- C9: a malformed time specification surfaces the ParseError of the
resolver synchronously as the pipeline's result, while a well-formed
window with zero overlap with the snapshot sequence does not fail: the
pipeline returns ok with every series empty. -/
theorem c9_parse_error_and_empty_window :
    (∀ (n : Network) (time : String) (days : Option Nat)
        (regions : Option (List String)) (si sc : Bool) (err : ParseError),
      resolve time days = Except.error err →
      plot_dispatch n time days regions si sc = Except.error err) ∧
    resolve "bogus" none = Except.error (ParseError.malformed "bogus") ∧
    (∀ (n : Network) (time : String) (days : Option Nat)
        (regions : Option (List String)) (si sc : Bool) (s e : Nat),
      resolve time days = Except.ok (s, e) →
      sliceTimes n s e = [] →
      plot_dispatch n time days regions si sc
        = Except.ok
            (⟨if si then [("Imports/Exports", [])] else [], [],
              if sc then some [] else none⟩,
             { n with carriers := if si then insertCarrier n.carriers
                                  else n.carriers })) := by
  refine ⟨?_, by decide, ?_⟩
  · intro n time days regions si sc err hres
    simp [plot_dispatch, hres]
  · intro n time days regions si sc s e hres hslice
    have hkept : keptCols n regions s e = [] := by
      unfold keptCols
      rw [List.filter_eq_nil_iff]
      intro c hc
      have hmem : c.1 ∈ zeroLabels n regions s e := by
        unfold zeroLabels
        exact List.mem_map.mpr
          ⟨c, List.mem_filter.mpr ⟨hc, by simp [hslice]⟩, rfl⟩
      simp [List.contains, hmem]
    simp only [plot_dispatch, hres, hkept, hslice, List.map_nil, List.nil_append]
    cases si <;> cases sc <;> simp

/-- C9 witness: on cnet, the window 2025 parses but has no overlap with the
2024 snapshots, and the pipeline returns ok with empty series. -/
theorem c9_parse_error_and_empty_window_witness :
    resolve "2025" none = Except.ok (hoursOf 2025 1 1 0, hoursOf 2025 12 31 23) ∧
    sliceTimes cnet (hoursOf 2025 1 1 0) (hoursOf 2025 12 31 23) = [] ∧
    plot_dispatch cnet "2025" none none true false
      = Except.ok (⟨[("Imports/Exports", [])], [], none⟩,
          { cnet with carriers := insertCarrier cnet.carriers }) :=
  ⟨by decide, by decide,
   c9_parse_error_and_empty_window.2.2 cnet "2025" none none true false
     (hoursOf 2025 1 1 0) (hoursOf 2025 12 31 23) (by decide) (by decide)⟩

/-- C10: the empty region list is treated inconsistently: the generator
selection mask is membership in the empty set and selects zero assets,
giving an empty aggregated carrier table; the load branch tests the list's
truthiness and therefore sums the scheduled demand of EVERY load of the
network; and the interchange boundary test uses the empty bus set, giving
zero interchange. -/
theorem c10_empty_region_inconsistency :
    ∀ (n : Network) (t : Nat),
      regionMask (n.generators.map (fun g => g.bus)) (some [])
          = n.generators.map (fun _ => false)
        ∧ selectRows n.generators
            (regionMask (n.generators.map (fun g => g.bus)) (some [])) = []
        ∧ p_by_carrier n (some []) = []
        ∧ loadAt n (some []) t = (n.loads.map (fun ld => ld.p_set t)).sum
        ∧ regionBuses n (some []) = []
        ∧ importsAt n [] t = 0 := by
  intro n t
  have hf : ∀ (buses : List String) (b : Bool),
      b ∈ regionMask buses (some []) → b = false := by
    intro buses b hb
    unfold regionMask at hb
    rcases List.mem_map.mp hb with ⟨x, _, rfl⟩
    rfl
  have hagg : ∀ (rows : List (String × (Nat → ℚ))) (mask : List Bool),
      (∀ b ∈ mask, b = false) → aggRows rows mask = [] := by
    intro rows mask hm
    unfold aggRows
    rw [selectRows_of_all_false rows mask hm]
    rfl
  refine ⟨?_, ?_, ?_, rfl, rfl, ?_⟩
  · simp [regionMask, List.map_map, Function.comp_def, List.contains]
  · exact selectRows_of_all_false _ _ (hf _)
  · unfold p_by_carrier
    rw [hagg _ _ (hf _), hagg _ _ (hf _), hagg _ _ (hf _)]
    rfl
  · unfold importsAt
    have hone : ∀ (br : List Branch),
        br.filter (fun l => List.contains ([] : List String) l.bus1
          && !List.contains ([] : List String) l.bus0) = [] := by
      intro br
      rw [List.filter_eq_nil_iff]
      intro l hl
      simp [List.contains]
    have htwo : ∀ (br : List Branch),
        br.filter (fun l => List.contains ([] : List String) l.bus0
          && !List.contains ([] : List String) l.bus1) = [] := by
      intro br
      rw [List.filter_eq_nil_iff]
      intro l hl
      simp [List.contains]
    rw [hone n.lines, htwo n.lines, hone n.links, htwo n.links]
    norm_num

end Dispatch
